import Mathlib

/-!
Verification of the voice-chat pipeline in `ChatGPT_VTT_TTS.py`.

The program is a sequential loop: capture microphone speech (Azure STT),
send the transcript to a chat-completion endpoint, synthesize the reply
(Azure TTS) into `output.wav`, play it with `ffplay`, delete the file, and
ask the user whether to continue.  The embedding below models each function
of the source as a pure Lean function; the outcomes of the external SDK
calls (recognition results, synthesis results, player and filesystem
behaviour, exceptions) are passed in explicitly as data, and each function
returns the lines it prints together with its return value and the flags
the claims ask about.
-/

namespace ChatGPTVTTTTS

/-- The recognition-result reasons the source inspects
(`speechsdk.ResultReason`); every reason other than the three named ones is
collapsed into `otherReason`. -/
inductive ResultReason
  | RecognizedSpeech
  | NoMatch
  | Canceled
  | otherReason (code : Nat)
deriving DecidableEq

/-- Cancellation reasons (`speechsdk.CancellationReason`). -/
inductive CancellationReason
  | Error
  | EndOfStream
  | CancelledByUser
deriving DecidableEq

/-- How a `CancellationReason` renders when interpolated into a printed
string (Python shows the enum member). -/
def CancellationReason.display : CancellationReason → String
  | CancellationReason.Error => "CancellationReason.Error"
  | CancellationReason.EndOfStream => "CancellationReason.EndOfStream"
  | CancellationReason.CancelledByUser => "CancellationReason.CancelledByUser"

/-- `cancellation_details` of an SDK result. -/
structure CancellationDetails where
  reason : CancellationReason
  error_details : String
deriving DecidableEq

/-- One recognition result as delivered by
`recognize_once_async().get()` (source lines 75-90). -/
structure SpeechRecognitionResult where
  reason : ResultReason
  text : String
  no_match_details : String
  cancellation_details : CancellationDetails
deriving DecidableEq

/-- `SpeechToTextManager.speechtotext_from_mic` (source lines 69-92),
as a function of the SDK recognition result.  Returns the printed lines
and the Python return value (`none` models Python `None`). -/
def speechtotext_from_mic (r : SpeechRecognitionResult) :
    List String × Option String :=
  match r.reason with
  | ResultReason.RecognizedSpeech =>
      (["Speak into your microphone..."], some r.text)
  | ResultReason.NoMatch =>
      (["Speak into your microphone...",
        "No speech could be recognized: " ++ r.no_match_details,
        "Retrying..."], none)
  | ResultReason.Canceled =>
      (["Speak into your microphone...",
        "Speech Recognition canceled: " ++ r.cancellation_details.reason.display] ++
        (if r.cancellation_details.reason = CancellationReason.Error then
          ["Error details: " ++ r.cancellation_details.error_details]
        else []), none)
  | ResultReason.otherReason _ =>
      (["Speak into your microphone..."], none)

/-- `chat_gpt` (source lines 42-48), as a function of the first choice's
message content returned by the completion endpoint: the source returns
`response.choices[0].message.content.strip()`. -/
def chat_gpt (content : String) : String :=
  content.trim

/-- The playback environment for one `play_audio` call: whether
`output.wav` exists when the `finally` block runs, whether the
`ffplay` subprocess call raises, and whether `os.remove` raises. -/
structure PlayEnv where
  fileExists : Bool
  playerFails : Bool
  playerErrMsg : String
  removeFails : Bool
deriving DecidableEq

/-- What one `play_audio` call did: printed lines, whether `os.remove`
was attempted, and whether the file still exists afterwards. -/
structure PlayResult where
  log : List String
  removeAttempted : Bool
  fileExistsAfter : Bool
deriving DecidableEq

/-- `TextToSpeechManager.play_audio` (source lines 127-143): the `try`
block runs `ffplay`; a player failure is caught and printed; the
`finally` block attempts `os.remove` whenever `os.path.isfile` holds and
silently swallows any deletion error (`except ... pass`). -/
def play_audio (env : PlayEnv) : PlayResult :=
  let log := if env.playerFails then
      ["An error occurred while playing audio: " ++ env.playerErrMsg]
    else []
  if env.fileExists then
    if env.removeFails then
      { log := log, removeAttempted := true, fileExistsAfter := true }
    else
      { log := log, removeAttempted := true, fileExistsAfter := false }
  else
    { log := log, removeAttempted := false, fileExistsAfter := false }

/-- Synthesis-result reasons the source inspects (source lines 116-124). -/
inductive SynthReason
  | SynthesizingAudioCompleted
  | Canceled
  | otherReason (code : Nat)
deriving DecidableEq

/-- One synthesis result as delivered by `speak_text_async(text).get()`. -/
structure SynthResult where
  reason : SynthReason
  cancellation_details : CancellationDetails
deriving DecidableEq

/-- What one `text_to_speech` call did. -/
structure TtsOutcome where
  log : List String
  playbackAttempted : Bool
  fileExistsAfter : Bool
deriving DecidableEq

/-- `TextToSpeechManager.text_to_speech` (source lines 108-124).  On
completed synthesis it plays the file; on cancellation it prints the line
`"Speech synthesis canceled: {cancellation_details.reason}"` — in the
source this string has no `f` prefix, so the braces are printed literally
(modelled here with escaped braces) — and, when the cancellation reason is
an error, prints the error details via a proper f-string; playback is not
attempted on cancellation. -/
def text_to_speech (result : SynthResult) (penv : PlayEnv) : TtsOutcome :=
  match result.reason with
  | SynthReason.SynthesizingAudioCompleted =>
      let pr := play_audio penv
      { log := ["Speech synthesis completed."] ++ pr.log,
        playbackAttempted := true,
        fileExistsAfter := pr.fileExistsAfter }
  | SynthReason.Canceled =>
      let base := ["Speech synthesis canceled: \x7bcancellation_details.reason\x7d"]
      if result.cancellation_details.reason = CancellationReason.Error then
        { log := base ++ ["Error details: " ++ result.cancellation_details.error_details],
          playbackAttempted := false,
          fileExistsAfter := penv.fileExists }
      else
        { log := base,
          playbackAttempted := false,
          fileExistsAfter := penv.fileExists }
  | SynthReason.otherReason _ =>
      { log := [],
        playbackAttempted := false,
        fileExistsAfter := penv.fileExists }

/-- The process environment variables the source reads (source lines 32,
59, 98): `none` models an unset variable. -/
structure Env where
  OPENAI_API_KEY : Option String
  AZURE_TTS_KEY : Option String
  AZURE_TTS2_KEY : Option String
  AZURE_TTS_REGION : Option String
deriving DecidableEq

/-- Python truthiness of `os.getenv` output as tested by
`if not api_key:` (source line 35): `None` and the empty string are falsy. -/
def pyFalsy : Option String → Bool
  | none => true
  | some s => s.isEmpty

/-- Modelled from the spec: `speechsdk.SpeechConfig` is third-party SDK
code not in this repository.  Per the spec's credential contract
("absence of any required variable terminates the process") and the
source's own `except TypeError` handlers (lines 58-61, 97-100),
constructing it with a missing subscription key or region raises a
`TypeError`. -/
def speechConfigRaisesTypeError (subscription region : Option String) : Bool :=
  subscription.isNone || region.isNone

/-- Outcome of module start-up: either `exit(msg)` fired before the loop,
or control reached the session loop. -/
inductive StartupOutcome
  | exited (msg : String)
  | running
deriving DecidableEq

/-- Start-up sequence of the module (source lines 32-39 and the two
manager constructors at lines 147-148, whose bodies are lines 56-66 and
96-105): each missing credential makes the process exit with a message
before the session loop — and hence before any pipeline activity — runs. -/
def startup (env : Env) : StartupOutcome :=
  if pyFalsy env.OPENAI_API_KEY then
    StartupOutcome.exited ("OpenAI API key is missing. Please set it in your environment variables.")
  else if speechConfigRaisesTypeError env.AZURE_TTS_KEY env.AZURE_TTS_REGION then
    StartupOutcome.exited ("Azure keys are missing! Please set AZURE_TTS_KEY and AZURE_TTS_REGION as environment variables!")
  else if speechConfigRaisesTypeError env.AZURE_TTS2_KEY env.AZURE_TTS_REGION then
    StartupOutcome.exited ("Azure keys are missing! Please set AZURE_TTS2_KEY and AZURE_TTS_REGION as environment variables!")
  else
    StartupOutcome.running

/-- Everything one loop iteration consumes: the outcome of the
speech-to-text call, of the completion call (the raw first-choice message
content), of the synthesis call, and the line of user input at the
continue/quit prompt.  `Except.error m` models the call raising an
exception whose rendered message is `m`. -/
structure TurnEnv where
  stt : Except String SpeechRecognitionResult
  gpt : Except String String
  tts : Except String (SynthResult × PlayEnv)
  userInput : String

/-- What one loop iteration (source lines 150-174) did. -/
structure TurnResult where
  log : List String
  chatInvoked : Bool
  ttsInvoked : Bool
  promptShown : Bool
  exitLoop : Bool
  caughtException : Option String
deriving DecidableEq

/-- The `except Exception` branch of the loop (source lines 172-174): the
message is printed, no prompt is shown this iteration, and the loop
continues. -/
def catchBranch (log : List String) (chatI ttsI : Bool) (e : String) : TurnResult :=
  { log := log ++ ["An error occurred: " ++ e],
    chatInvoked := chatI,
    ttsInvoked := ttsI,
    promptShown := false,
    exitLoop := false,
    caughtException := some e }

/-- The tail of a successful iteration body (source lines 165-170): the
continue/quit prompt, `input().strip().lower()`, and `break` exactly when
the result equals `quit`. -/
def afterPipeline (log : List String) (chatI ttsI : Bool) (input : String) : TurnResult :=
  { log := log,
    chatInvoked := chatI,
    ttsInvoked := ttsI,
    promptShown := true,
    exitLoop := input.trim.toLower == "quit",
    caughtException := none }

/-- The retry notice of the `else` branch (source line 162). -/
def retryNotice : String :=
  "No valid speech input detected. Please try again."

/-- The truthy branch of the iteration body (source lines 154-160):
print the user text, call `chat_gpt`, print the reply, call
`text_to_speech`, then fall through to the prompt.  An exception from
either call jumps to the `except` branch. -/
def bodyWithText (env : TurnEnv) (slog : List String) (t : String) : TurnResult :=
  let log1 := slog ++ ["\nUser: " ++ t]
  match env.gpt with
  | Except.error e => catchBranch log1 true false e
  | Except.ok content =>
      let chat_response := chat_gpt content
      let log2 := log1 ++ ["Bot: " ++ chat_response]
      match env.tts with
      | Except.error e => catchBranch log2 true true e
      | Except.ok senv =>
          let tr := text_to_speech senv.1 senv.2
          afterPipeline (log2 ++ tr.log) true true env.userInput

/-- The iteration body after the speech-to-text call returned
(source lines 154-170): `if speech_text:` is Python truthiness, so both
`None` and the empty string take the retry branch. -/
def turnWithSpeech (env : TurnEnv) (slog : List String) (speech_text : Option String) : TurnResult :=
  match speech_text with
  | some t =>
      if t.isEmpty then
        afterPipeline (slog ++ [retryNotice]) false false env.userInput
      else
        bodyWithText env slog t
  | none =>
      afterPipeline (slog ++ [retryNotice]) false false env.userInput

/-- One full iteration of the session loop (source lines 150-174). -/
def runTurn (env : TurnEnv) : TurnResult :=
  match env.stt with
  | Except.error e => catchBranch [] false false e
  | Except.ok r =>
      turnWithSpeech env (speechtotext_from_mic r).1 (speechtotext_from_mic r).2

/-- Trimming as the spec words it for the transcription contract ("returns
the trimmed text": leading and trailing whitespace removed), stated
executably over the character list so concrete inputs evaluate.  This is
the spec-side definition to compare with what the source returns. -/
def specTrimmed (s : String) : String :=
  String.mk (((s.data.dropWhile Char.isWhitespace).reverse.dropWhile Char.isWhitespace).reverse)

/-! ### Concrete inputs used by witnesses and counterexamples -/

/-- A cancellation-details value for results that were not cancelled. -/
def noCancellation : CancellationDetails :=
  { reason := CancellationReason.EndOfStream, error_details := "" }

/-- A no-match recognition result. -/
def noMatchResult : SpeechRecognitionResult :=
  { reason := ResultReason.NoMatch,
    text := "",
    no_match_details := "NoMatchReason.NotRecognized",
    cancellation_details := noCancellation }

/-- A recognized-speech result carrying the given text. -/
def recognizedResult (t : String) : SpeechRecognitionResult :=
  { reason := ResultReason.RecognizedSpeech,
    text := t,
    no_match_details := "",
    cancellation_details := noCancellation }

/-- A recognition result with a reason the source never names. -/
def unknownReasonResult : SpeechRecognitionResult :=
  { reason := ResultReason.otherReason 3,
    text := "",
    no_match_details := "",
    cancellation_details := noCancellation }

/-- A playback environment where everything succeeds. -/
def playEnvIdle : PlayEnv :=
  { fileExists := true, playerFails := false, playerErrMsg := "", removeFails := false }

/-- A playback environment where the file exists, the player succeeds,
and `os.remove` raises (the file is held open elsewhere). -/
def playEnvStuck : PlayEnv :=
  { fileExists := true, playerFails := false, playerErrMsg := "", removeFails := true }

/-- A playback environment where the player itself fails but deletion
succeeds. -/
def playEnvPlayerDown : PlayEnv :=
  { fileExists := true, playerFails := true, playerErrMsg := "ffplay not found", removeFails := false }

/-- A successful synthesis result. -/
def synthOkResult : SynthResult :=
  { reason := SynthReason.SynthesizingAudioCompleted, cancellation_details := noCancellation }

/-- A synthesis cancellation whose reason is an error. -/
def synthCancelError : SynthResult :=
  { reason := SynthReason.Canceled,
    cancellation_details := { reason := CancellationReason.Error, error_details := "Connection reset" } }

/-- A turn whose recognition attempt hits no-match and whose user declines
to quit. -/
def envNoMatch : TurnEnv :=
  { stt := Except.ok noMatchResult,
    gpt := Except.ok ("unused"),
    tts := Except.ok (synthOkResult, playEnvIdle),
    userInput := "" }

/-- A turn whose recognition attempt hits no-match and whose user types a
quit token with noise around it. -/
def envQuitNoisy : TurnEnv :=
  { stt := Except.ok noMatchResult,
    gpt := Except.ok ("unused"),
    tts := Except.ok (synthOkResult, playEnvIdle),
    userInput := "  QUIT " }

/-- A turn whose speech-to-text call raises; the user typed the quit token
but the prompt never runs. -/
def envSttRaises : TurnEnv :=
  { stt := Except.error ("Connection error"),
    gpt := Except.ok ("unused"),
    tts := Except.ok (synthOkResult, playEnvIdle),
    userInput := "quit" }

/-- A turn whose completion call raises mid-iteration. -/
def envGptRaises : TurnEnv :=
  { stt := Except.ok (recognizedResult ("hello")),
    gpt := Except.error ("Read timeout"),
    tts := Except.ok (synthOkResult, playEnvIdle),
    userInput := "" }

/-- A fully successful turn ended by the quit token. -/
def envFullQuit : TurnEnv :=
  { stt := Except.ok (recognizedResult ("hello")),
    gpt := Except.ok (" hi there "),
    tts := Except.ok (synthOkResult, playEnvIdle),
    userInput := "quit" }

/-- A turn whose recognition nominally succeeded but produced the empty
string. -/
def envEmptyText : TurnEnv :=
  { stt := Except.ok (recognizedResult ("")),
    gpt := Except.ok ("unused"),
    tts := Except.ok (synthOkResult, playEnvIdle),
    userInput := "" }

/-- An environment with every required variable unset. -/
def envAllMissing : Env :=
  { OPENAI_API_KEY := none,
    AZURE_TTS_KEY := none,
    AZURE_TTS2_KEY := none,
    AZURE_TTS_REGION := none }

/-! ### Helper lemmas -/

theorem afterPipeline_log (l : List String) (c t : Bool) (i : String) :
    (afterPipeline l c t i).log = l := rfl

theorem afterPipeline_chatInvoked (l : List String) (c t : Bool) (i : String) :
    (afterPipeline l c t i).chatInvoked = c := rfl

theorem afterPipeline_ttsInvoked (l : List String) (c t : Bool) (i : String) :
    (afterPipeline l c t i).ttsInvoked = t := rfl

theorem afterPipeline_promptShown (l : List String) (c t : Bool) (i : String) :
    (afterPipeline l c t i).promptShown = true := rfl

theorem afterPipeline_exitLoop (l : List String) (c t : Bool) (i : String) :
    (afterPipeline l c t i).exitLoop = (i.trim.toLower == "quit") := rfl

theorem afterPipeline_caught (l : List String) (c t : Bool) (i : String) :
    (afterPipeline l c t i).caughtException = none := rfl

theorem catchBranch_log (l : List String) (c t : Bool) (e : String) :
    (catchBranch l c t e).log = l ++ ["An error occurred: " ++ e] := rfl

theorem catchBranch_promptShown (l : List String) (c t : Bool) (e : String) :
    (catchBranch l c t e).promptShown = false := rfl

theorem catchBranch_exitLoop (l : List String) (c t : Bool) (e : String) :
    (catchBranch l c t e).exitLoop = false := rfl

theorem catchBranch_caught (l : List String) (c t : Bool) (e : String) :
    (catchBranch l c t e).caughtException = some e := rfl

theorem runTurn_ok (env : TurnEnv) (r : SpeechRecognitionResult)
    (h : env.stt = Except.ok r) :
    runTurn env = turnWithSpeech env (speechtotext_from_mic r).1 (speechtotext_from_mic r).2 := by
  unfold runTurn
  rw [h]

theorem turnWithSpeech_none (env : TurnEnv) (slog : List String) :
    turnWithSpeech env slog none =
      afterPipeline (slog ++ [retryNotice]) false false env.userInput := rfl

theorem turnWithSpeech_someEmpty (env : TurnEnv) (slog : List String) :
    turnWithSpeech env slog (some ("")) =
      afterPipeline (slog ++ [retryNotice]) false false env.userInput := rfl

theorem speechtotext_recognized (r : SpeechRecognitionResult)
    (h : r.reason = ResultReason.RecognizedSpeech) :
    (speechtotext_from_mic r).2 = some r.text := by
  obtain ⟨reason, text, nmd, cd⟩ := r
  cases reason <;> simp_all [speechtotext_from_mic]

theorem speechtotext_not_recognized (r : SpeechRecognitionResult)
    (h : r.reason ≠ ResultReason.RecognizedSpeech) :
    (speechtotext_from_mic r).2 = none := by
  obtain ⟨reason, text, nmd, cd⟩ := r
  cases reason <;> simp_all [speechtotext_from_mic]

theorem bodyWithText_cases (env : TurnEnv) (slog : List String) (t : String) :
    (∃ l c ti e, bodyWithText env slog t = catchBranch l c ti e) ∨
    (∃ l c ti, bodyWithText env slog t = afterPipeline l c ti env.userInput) := by
  unfold bodyWithText
  cases env.gpt with
  | error e => exact Or.inl ⟨_, _, _, _, rfl⟩
  | ok content =>
      cases env.tts with
      | error e => exact Or.inl ⟨_, _, _, _, rfl⟩
      | ok senv => exact Or.inr ⟨_, _, _, rfl⟩

theorem turnWithSpeech_cases (env : TurnEnv) (slog : List String) (st : Option String) :
    (∃ l c ti e, turnWithSpeech env slog st = catchBranch l c ti e) ∨
    (∃ l c ti, turnWithSpeech env slog st = afterPipeline l c ti env.userInput) := by
  unfold turnWithSpeech
  cases st with
  | none => exact Or.inr ⟨_, _, _, rfl⟩
  | some t =>
      dsimp only
      by_cases ht : t.isEmpty = true
      · rw [if_pos ht]
        exact Or.inr ⟨_, _, _, rfl⟩
      · rw [if_neg ht]
        exact bodyWithText_cases env slog t

theorem runTurn_cases (env : TurnEnv) :
    (∃ l c ti e, runTurn env = catchBranch l c ti e) ∨
    (∃ l c ti, runTurn env = afterPipeline l c ti env.userInput) := by
  unfold runTurn
  cases env.stt with
  | error e => exact Or.inl ⟨_, _, _, _, rfl⟩
  | ok r => exact turnWithSpeech_cases env _ _

/-! ### Claims -/

/-- Claim C1: for every session-loop turn in which the transcription step
returns no utterance, `chat_gpt` and `text_to_speech` are never invoked
during that turn, and a retry notice is printed instead. -/
theorem c1_no_utterance_skips_services (env : TurnEnv) (r : SpeechRecognitionResult)
    (hstt : env.stt = Except.ok r)
    (hnone : (speechtotext_from_mic r).2 = none) :
    (runTurn env).chatInvoked = false ∧ (runTurn env).ttsInvoked = false ∧
    retryNotice ∈ (runTurn env).log := by
  rw [runTurn_ok env r hstt, hnone, turnWithSpeech_none]
  refine ⟨rfl, rfl, ?_⟩
  rw [afterPipeline_log]
  simp

/-- Witness for C1: a concrete no-match turn. -/
theorem c1_witness :
    (envNoMatch.stt = Except.ok noMatchResult ∧
      (speechtotext_from_mic noMatchResult).2 = none) ∧
    ((runTurn envNoMatch).chatInvoked = false ∧ (runTurn envNoMatch).ttsInvoked = false ∧
      retryNotice ∈ (runTurn envNoMatch).log) :=
  ⟨⟨rfl, rfl⟩, c1_no_utterance_skips_services envNoMatch noMatchResult rfl rfl⟩

/-- Claim C2: whenever the continue/quit prompt runs, the loop terminates
exactly when the input, trimmed and lowercased, equals the token `quit`. -/
theorem c2_quit_iff (env : TurnEnv)
    (h : (runTurn env).promptShown = true) :
    ((runTurn env).exitLoop = true ↔ env.userInput.trim.toLower = "quit") := by
  rcases runTurn_cases env with ⟨l, c, ti, e, hE⟩ | ⟨l, c, ti, hA⟩
  · rw [hE, catchBranch_promptShown] at h
    exact Bool.noConfusion h
  · rw [hA, afterPipeline_exitLoop]
    simp

/-- Witness for C2: a concrete turn whose user types a noisy quit token. -/
theorem c2_witness :
    (runTurn envQuitNoisy).promptShown = true ∧
    ((runTurn envQuitNoisy).exitLoop = true ↔ envQuitNoisy.userInput.trim.toLower = "quit") :=
  ⟨rfl, c2_quit_iff envQuitNoisy rfl⟩

/-- Counterexample for C3: when `os.remove` raises (the file is in use),
the deletion was attempted and the failure was swallowed silently, but the
audio artifact still exists on disk after the turn — refuting the claim
that the file never exists after a turn completes. -/
theorem c3_cleanup_counterexample :
    (play_audio playEnvStuck).removeAttempted = true ∧
    (play_audio playEnvStuck).log = ([] : List String) ∧
    (play_audio playEnvStuck).fileExistsAfter = true :=
  ⟨rfl, rfl, rfl⟩

/-- Claim C3 (amended): after a playback attempt, whether the player
succeeds or fails, deletion is attempted whenever the file exists, any
deletion failure is swallowed silently, and the file does not exist
afterwards provided the deletion attempt does not fail. -/
theorem c3_cleanup_amended (penv : PlayEnv) (h : penv.removeFails = false) :
    (play_audio penv).removeAttempted = penv.fileExists ∧
    (play_audio penv).fileExistsAfter = false ∧
    (play_audio penv).log =
      (if penv.playerFails then
        ["An error occurred while playing audio: " ++ penv.playerErrMsg]
      else []) := by
  cases penv with
  | mk fe pf msg rf =>
      cases fe <;> simp_all [play_audio]

/-- Witness for C3: a concrete playback where the player fails but
deletion succeeds. -/
theorem c3_witness :
    playEnvPlayerDown.removeFails = false ∧
    ((play_audio playEnvPlayerDown).removeAttempted = playEnvPlayerDown.fileExists ∧
      (play_audio playEnvPlayerDown).fileExistsAfter = false ∧
      (play_audio playEnvPlayerDown).log =
        (if playEnvPlayerDown.playerFails then
          ["An error occurred while playing audio: " ++ playEnvPlayerDown.playerErrMsg]
        else [])) :=
  ⟨rfl, c3_cleanup_amended playEnvPlayerDown rfl⟩

/-- Claim C4: any exception raised by the three services during a turn is
caught at the loop boundary, logged with its message, and the loop
continues — the turn never terminates the session. -/
theorem c4_exception_guard (env : TurnEnv) (m : String)
    (h : (runTurn env).caughtException = some m) :
    ("An error occurred: " ++ m) ∈ (runTurn env).log ∧
    (runTurn env).exitLoop = false := by
  rcases runTurn_cases env with ⟨l, c, ti, e, hE⟩ | ⟨l, c, ti, hA⟩
  · rw [hE, catchBranch_caught] at h
    obtain rfl : e = m := Option.some.inj h
    rw [hE, catchBranch_log, catchBranch_exitLoop]
    exact ⟨by simp, rfl⟩
  · rw [hA, afterPipeline_caught] at h
    exact Option.noConfusion h

/-- Witness for C4: a concrete turn whose speech-to-text call raises; the
message is logged and the loop does not exit even though the user had
typed the quit token. -/
theorem c4_witness :
    (runTurn envSttRaises).caughtException = some ("Connection error") ∧
    (("An error occurred: " ++ "Connection error") ∈ (runTurn envSttRaises).log ∧
      (runTurn envSttRaises).exitLoop = false) :=
  ⟨rfl, c4_exception_guard envSttRaises ("Connection error") rfl⟩

/-- Counterexample for C5: on recognized speech the source returns
`speech_recognition_result.text` verbatim (line 80) — there is no
`.strip()` — so surrounding whitespace survives, refuting the claim that
the returned utterance is trimmed. -/
theorem c5_trim_counterexample :
    (speechtotext_from_mic (recognizedResult ("  hello  "))).2 = some ("  hello  ") ∧
    specTrimmed ("  hello  ") = "hello" ∧
    (speechtotext_from_mic (recognizedResult ("  hello  "))).2 ≠
      some (specTrimmed ("  hello  ")) :=
  ⟨rfl, by decide, by decide⟩

/-- Claim C5 (amended): for every capture whose recognition outcome is
recognized speech, `speechtotext_from_mic` returns the recognized text
exactly as the recognizer produced it, without trimming. -/
theorem c5_returns_untrimmed (r : SpeechRecognitionResult)
    (h : r.reason = ResultReason.RecognizedSpeech) :
    (speechtotext_from_mic r).2 = some r.text :=
  speechtotext_recognized r h

/-- Witness for C5: a concrete recognized result with padded text. -/
theorem c5_witness :
    (recognizedResult ("  hello  ")).reason = ResultReason.RecognizedSpeech ∧
    (speechtotext_from_mic (recognizedResult ("  hello  "))).2 =
      some (recognizedResult ("  hello  ")).text :=
  ⟨rfl, c5_returns_untrimmed (recognizedResult ("  hello  ")) rfl⟩

/-- Counterexample for C6: a turn in which the completion step raises an
exception ends in the `except` branch, which never reaches the
continue/quit prompt — refuting the claim that the prompt runs after every
iteration including per-step failures. -/
theorem c6_prompt_counterexample :
    (runTurn envGptRaises).caughtException = some ("Read timeout") ∧
    (runTurn envGptRaises).promptShown = false ∧
    (runTurn envGptRaises).exitLoop = false :=
  ⟨rfl, rfl, rfl⟩

/-- Claim C6 (amended): after every session-loop iteration that completes
without an uncaught exception — including turns skipped for lack of speech
and turns whose synthesis is cancelled — the user is prompted for the exit
keyword, and entering it (trimmed, case-insensitive) exits the loop; an
iteration ended by a caught exception skips the prompt and the loop
continues. -/
theorem c6_prompt_after_no_exception (env : TurnEnv)
    (h : (runTurn env).caughtException = none) :
    (runTurn env).promptShown = true ∧
    ((runTurn env).exitLoop = true ↔ env.userInput.trim.toLower = "quit") := by
  rcases runTurn_cases env with ⟨l, c, ti, e, hE⟩ | ⟨l, c, ti, hA⟩
  · rw [hE, catchBranch_caught] at h
    exact Option.noConfusion h
  · rw [hA, afterPipeline_promptShown, afterPipeline_exitLoop]
    exact ⟨rfl, by simp⟩

/-- Witness for C6: a concrete fully successful turn ended by the quit
token. -/
theorem c6_witness :
    (runTurn envFullQuit).caughtException = none ∧
    ((runTurn envFullQuit).promptShown = true ∧
      ((runTurn envFullQuit).exitLoop = true ↔ envFullQuit.userInput.trim.toLower = "quit")) :=
  ⟨rfl, c6_prompt_after_no_exception envFullQuit rfl⟩

/-- Claim C7, evaluated at the failing input: on a synthesis cancellation
due to an error the source does log the error details and does not attempt
playback, but the cancellation-reason line is the string literal
`"Speech synthesis canceled: {cancellation_details.reason}"` printed
verbatim (source line 122 lacks the f prefix), so the actual cancellation
reason is never logged. -/
theorem c7_cancel_literal_log :
    (text_to_speech synthCancelError playEnvIdle).playbackAttempted = false ∧
    (text_to_speech synthCancelError playEnvIdle).log =
      ["Speech synthesis canceled: \x7bcancellation_details.reason\x7d",
       "Error details: Connection reset"] ∧
    ("Speech synthesis canceled: \x7bcancellation_details.reason\x7d" : String) ≠
      "Speech synthesis canceled: " ++ CancellationReason.display CancellationReason.Error :=
  ⟨rfl, rfl, by decide⟩

/-- Claim C8: every combination of missing required environment variables
makes the process exit with a descriptive message during start-up, before
the session loop — and hence any pipeline activity or network call — can
run. -/
theorem c8_missing_env_exits (env : Env)
    (h : env.OPENAI_API_KEY = none ∨ env.AZURE_TTS_KEY = none ∨
         env.AZURE_TTS2_KEY = none ∨ env.AZURE_TTS_REGION = none) :
    ∃ msg, startup env = StartupOutcome.exited msg ∧ msg ≠ "" := by
  by_cases h1 : pyFalsy env.OPENAI_API_KEY = true
  · refine ⟨"OpenAI API key is missing. Please set it in your environment variables.", ?_, by decide⟩
    unfold startup
    rw [if_pos h1]
  · by_cases h2 : speechConfigRaisesTypeError env.AZURE_TTS_KEY env.AZURE_TTS_REGION = true
    · refine ⟨"Azure keys are missing! Please set AZURE_TTS_KEY and AZURE_TTS_REGION as environment variables!", ?_, by decide⟩
      unfold startup
      rw [if_neg h1, if_pos h2]
    · by_cases h3 : speechConfigRaisesTypeError env.AZURE_TTS2_KEY env.AZURE_TTS_REGION = true
      · refine ⟨"Azure keys are missing! Please set AZURE_TTS2_KEY and AZURE_TTS_REGION as environment variables!", ?_, by decide⟩
        unfold startup
        rw [if_neg h1, if_neg h2, if_pos h3]
      · exfalso
        rcases h with h | h | h | h
        · exact h1 (by simp [pyFalsy, h])
        · exact h2 (by simp [speechConfigRaisesTypeError, h])
        · exact h3 (by simp [speechConfigRaisesTypeError, h])
        · exact h2 (by simp [speechConfigRaisesTypeError, h])

/-- Witness for C8: the environment with every variable unset. -/
theorem c8_witness :
    (envAllMissing.OPENAI_API_KEY = none ∨ envAllMissing.AZURE_TTS_KEY = none ∨
      envAllMissing.AZURE_TTS2_KEY = none ∨ envAllMissing.AZURE_TTS_REGION = none) ∧
    (∃ msg, startup envAllMissing = StartupOutcome.exited msg ∧ msg ≠ "") :=
  ⟨Or.inl rfl, c8_missing_env_exits envAllMissing (Or.inl rfl)⟩

/-- Claim C9: a turn whose recognition nominally succeeded but produced
the empty string is treated like no utterance — Python truthiness of the
empty string makes the retry branch run, and neither service is invoked. -/
theorem c9_empty_text_skips_services (env : TurnEnv) (r : SpeechRecognitionResult)
    (hstt : env.stt = Except.ok r)
    (hr : r.reason = ResultReason.RecognizedSpeech)
    (ht : r.text = "") :
    (runTurn env).chatInvoked = false ∧ (runTurn env).ttsInvoked = false ∧
    retryNotice ∈ (runTurn env).log := by
  have hsome : (speechtotext_from_mic r).2 = some ("") := by
    rw [speechtotext_recognized r hr, ht]
  rw [runTurn_ok env r hstt, hsome, turnWithSpeech_someEmpty]
  refine ⟨rfl, rfl, ?_⟩
  rw [afterPipeline_log]
  simp

/-- Witness for C9: a concrete turn whose recognizer returned the empty
string. -/
theorem c9_witness :
    (envEmptyText.stt = Except.ok (recognizedResult ("")) ∧
      (recognizedResult ("")).reason = ResultReason.RecognizedSpeech ∧
      (recognizedResult ("")).text = "") ∧
    ((runTurn envEmptyText).chatInvoked = false ∧
      (runTurn envEmptyText).ttsInvoked = false ∧
      retryNotice ∈ (runTurn envEmptyText).log) :=
  ⟨⟨rfl, rfl, rfl⟩,
    c9_empty_text_skips_services envEmptyText (recognizedResult ("")) rfl rfl rfl⟩

/-- Claim C10: `speechtotext_from_mic` is total over recognition outcomes
— every result whose reason is not recognized speech, including reasons
the source never names, yields `none` rather than text. -/
theorem c10_nonrecognized_returns_none (r : SpeechRecognitionResult)
    (h : r.reason ≠ ResultReason.RecognizedSpeech) :
    (speechtotext_from_mic r).2 = none :=
  speechtotext_not_recognized r h

/-- Witness for C10: a concrete result with an unhandled reason. -/
theorem c10_witness :
    unknownReasonResult.reason ≠ ResultReason.RecognizedSpeech ∧
    (speechtotext_from_mic unknownReasonResult).2 = none :=
  ⟨by decide, c10_nonrecognized_returns_none unknownReasonResult (by decide)⟩

end ChatGPTVTTTTS
